import Mathlib

/-!
Verification of the NowcastLightning field-fusion engine.

The repository ships only the unit-test surface of the plugin
(`improver/tests/nowcasting/lightning/test_NowcastLightning.py`); the
plugin module itself is not among the sources.  The definitions below are
therefore modelled from the specification of the engine, with every
configuration value pinned to what the test surface demands (the
`__repr__` test enumerates the default control points, and each rule test
fixes the rule's value at concrete inputs).  Grids are embedded as
functions from an abstract cell type `Pos` to rational values.
-/

namespace Nowcast

variable {Pos : Type}

/-- Modelled from the spec: linear interpolation between two control
points `(x0, y0)` and `(x1, y1)` of a probability mapping table. -/
def interpSeg (x0 y0 x1 y1 x : ℚ) : ℚ :=
  y0 + (x - x0) * (y1 - y0) / (x1 - x0)

/-- Modelled from the spec: ceiling mapping table of the Precipitation
Rule, control points 0.0 -> 0.0067, 0.05 -> 0.2, 0.1 -> 1.0, clamped
below the first and above the last control point. -/
def precipCeiling (x : ℚ) : ℚ :=
  if x < 0 then 67/10000
  else if x < 1/20 then interpSeg 0 (67/10000) (1/20) (1/5) x
  else if x < 1/10 then interpSeg (1/20) (1/5) (1/10) 1 x
  else 1

/-- Modelled from the spec: mid-slice trigger threshold of the
Precipitation Rule (the `__repr__` default 0.4). -/
def phighthresh : ℚ := 2/5

/-- Modelled from the spec: high-slice trigger threshold of the
Precipitation Rule (the `__repr__` default 0.2). -/
def ptorrthresh : ℚ := 1/5

/-- Modelled from the spec: floor contributed by the mid-threshold
(7 mm/hr) precipitation slice.  The rule tests pin this to a step:
a mid-slice probability of at least 0.4 yields floor 0.25
(`test_precip_heavy`), and 0.3 yields no floor at all
(`test_precip_heavy_null`). -/
def floorMid (x : ℚ) : ℚ :=
  if phighthresh ≤ x then 1/4 else 0

/-- Modelled from the spec: floor contributed by the high-threshold
(35 mm/hr) precipitation slice; a probability of at least 0.2 yields
floor 1.0 (`test_precip_intense`), below that nothing
(`test_precip_intense_null`). -/
def floorHigh (x : ℚ) : ℚ :=
  if ptorrthresh ≤ x then 1 else 0

/-- Modelled from the spec: the Precipitation Rule.  The low slice gives
a ceiling bounding the first guess from above; the mid and high slices
give floors; the result is the maximum of the bounded first guess and
the two floors. -/
def applyPrecipData (fg low mid high : Pos → ℚ) : Pos → ℚ :=
  fun p =>
    max (min (fg p) (precipCeiling (low p)))
      (max (floorMid (mid p)) (floorHigh (high p)))

/-- Modelled from the spec: the claim's reading of the floor-mid mapping
table as the continuous piecewise-linear function through the control
points 0.0 -> 0.0 and 1.0 -> 0.25, clamped outside.  Kept for
comparison with `floorMid`. -/
def floorMidLinearSpec (x : ℚ) : ℚ :=
  if x < 0 then 0
  else if x < 1 then interpSeg 0 0 1 (1/4) x
  else 1/4

/-- The Precipitation Rule as it would read with the piecewise-linear
floor-mid table of `floorMidLinearSpec`; used to compare the claim's
reading against `applyPrecipData`. -/
def applyPrecipLinearMid (fg low mid high : Pos → ℚ) : Pos → ℚ :=
  fun p =>
    max (min (fg p) (precipCeiling (low p)))
      (max (floorMidLinearSpec (mid p)) (floorHigh (high p)))

/-- Modelled from the spec: upper lightning-rate breakpoint (rate at or
above which the rate floor is 1.0).  It is configurable; the default
used here is positive, which is all the test surface exercises (rates
-1, 0 and 1 with floor 1.0 reached at rate 1). -/
def lrtLev1 : ℚ := 1/2

/-- Modelled from the spec: lower lightning-rate breakpoint (defaults:
rate 0 and above contributes floor 0.25). -/
def lrtLev2 : ℚ := 0

/-- Modelled from the spec: the Rate Floor Rule applied to a first-guess
field.  A rate at or above `lrtLev1` raises the cell to at least 1.0, a
rate at or above `lrtLev2 = 0` raises it to at least 0.25, and the null
sentinel -1 (below both breakpoints) contributes nothing. -/
def rateStage (fg rate : Pos → ℚ) : Pos → ℚ :=
  fun p =>
    let v := if lrtLev1 ≤ rate p then max (fg p) 1 else fg p
    if lrtLev2 ≤ rate p then max v (1/4) else v

/-- Modelled from the spec: floor weights for the three ice slices at
thresholds 0.5, 1.0 and 2.0 kg/m^2 (the `__repr__` defaults 0.1, 0.5
and 0.9). -/
def iceScalingLow : ℚ := 1/10

/-- Mid ice-slice floor weight (default 0.5). -/
def iceScalingMid : ℚ := 1/2

/-- High ice-slice floor weight (default 0.9). -/
def iceScalingHigh : ℚ := 9/10

/-- Modelled from the spec: lead-time decay factor of the Ice Rule.
Lead times at or before 0 preserve the ice floor unscaled; past 0 the
factor falls linearly, reaching zero at the decay horizon of 2 hours
and staying zero beyond it. -/
def iceDecay (leadHours : ℚ) : ℚ :=
  if leadHours ≤ 0 then 1 else max 0 (1 - leadHours / 2)

/-- Modelled from the spec: the Ice Rule.  Each ice slice contributes a
floor equal to its weight times its probability, scaled by the
lead-time decay factor of the consuming field; the output is the
maximum of the first guess and the three scaled floors. -/
def applyIceData (fg i1 i2 i3 : Pos → ℚ) (leadHours : ℚ) : Pos → ℚ :=
  fun p =>
    max (fg p)
      (iceDecay leadHours *
        max (iceScalingLow * i1 p)
          (max (iceScalingMid * i2 p) (iceScalingHigh * i3 p)))

/-- Modelled from the spec: the First-Guess Modifier's data path.  The
rate floor is applied to the first guess, the Precipitation Rule to the
result, and finally, when an ice field is supplied, the Ice Rule. -/
def modifyFirstGuessData (fg rate low mid high : Pos → ℚ)
    (vii : Option ((Pos → ℚ) × (Pos → ℚ) × (Pos → ℚ))) (leadHours : ℚ) :
    Pos → ℚ :=
  let afterRate := rateStage fg rate
  let afterPrecip := applyPrecipData afterRate low mid high
  match vii with
  | none => afterPrecip
  | some (i1, i2, i3) => applyIceData afterPrecip i1 i2 i3 leadHours

/-- Modelled from the spec: a named coordinate of a field; a threshold
coordinate keeps its ordered list of threshold points. -/
structure Coord where
  cname : String
  points : List ℚ
deriving DecidableEq

/-- Modelled from the spec: a field ("cube").  `data` is the stack of
slices along the threshold axis; a field without a threshold axis holds
a single slice.  `time` is the validity time, `fp` the forecast lead
time in hours. -/
structure Cube (Pos : Type) where
  name : String
  time : ℚ
  fp : ℚ
  coords : List Coord
  data : List (Pos → ℚ)

/-- Modelled from the spec: the error taxonomy of the engine. -/
inductive NLError where
  | roleResolution (role : String) (found : Nat)
  | thresholdLookup (label : String) (magnitude : ℚ)
  | coordinate (msg : String)
  | alignment (which : String)
deriving DecidableEq

/-- The threshold coordinates carried by a cube. -/
def thresholdCoords (c : Cube Pos) : List Coord :=
  c.coords.filter (fun k => k.cname == "threshold")

/-- The slice of a cube's first slice (for cubes without a threshold
axis); an absent data list reads as the zero grid. -/
def d0 (c : Cube Pos) : Pos → ℚ :=
  c.data.headD (fun _ => 0)

/-- Modelled from the spec: exact-match selection of the threshold slice
at magnitude `t`; `none` when the cube has no unique threshold
coordinate or no point equal to `t`. -/
def extractThresholdSlice (c : Cube Pos) (t : ℚ) : Option (Pos → ℚ) :=
  match thresholdCoords c with
  | [k] =>
    match k.points.findIdx? (fun x => x == t) with
    | some i => c.data.get? i
    | none => none
  | _ => none

/-- Modelled from the spec: the cube holding one threshold slice, with a
scalar threshold coordinate recording the selected magnitude. -/
def extractThresholdCube (c : Cube Pos) (t : ℚ) : Option (Cube Pos) :=
  match extractThresholdSlice c t with
  | some s =>
    some { c with
      coords := c.coords.filter (fun k => !(k.cname == "threshold"))
        ++ [⟨"threshold", [t]⟩],
      data := [s] }
  | none => none

/-- Modelled from the spec: the Metadata Normalizer.  A template with
exactly one threshold coordinate yields a copy with that coordinate
removed and the identity renamed to the canonical output name; any
other threshold-coordinate count is a `CoordinateError`. -/
def updateMetadata (c : Cube Pos) : Except NLError (Cube Pos) :=
  match thresholdCoords c with
  | [_] =>
    .ok { c with
      name := "lightning_probability",
      coords := c.coords.filter (fun k => !(k.cname == "threshold")) }
  | _ => .error (.coordinate "expected exactly one threshold coordinate")

/-- Modelled from the spec: role resolution in the Orchestrator; exactly
one cube of the collection may carry the role name, otherwise a
`RoleResolutionError` reports the role and the observed count. -/
def extractByName (cubes : List (Cube Pos)) (role : String) :
    Except NLError (Cube Pos) :=
  match cubes.filter (fun c => c.name == role) with
  | [c] => .ok c
  | l => .error (.roleResolution role l.length)

/-- Modelled from the spec: the Precipitation Rule at cube level; the
three precipitation slices are selected by exact threshold match
(0.5, 7.0 and 35.0 mm/hr), a missing slice failing with a
`ThresholdLookupError` naming which of low/mid/high is absent. -/
def applyPrecipCube (fg precip : Cube Pos) : Except NLError (Cube Pos) :=
  match extractThresholdSlice precip (1/2) with
  | none => .error (.thresholdLookup "low precip" (1/2))
  | some low =>
    match extractThresholdSlice precip 7 with
    | none => .error (.thresholdLookup "high precip" 7)
    | some mid =>
      match extractThresholdSlice precip 35 with
      | none => .error (.thresholdLookup "intense precip" 35)
      | some high =>
        .ok { fg with data := [applyPrecipData (d0 fg) low mid high] }

/-- Modelled from the spec: the Ice Rule at cube level; the three ice
slices are selected at thresholds 0.5, 1.0 and 2.0 kg/m^2, and the
decay uses the consuming (first-argument) cube's forecast lead time. -/
def applyIceCube (fg ice : Cube Pos) : Except NLError (Cube Pos) :=
  match extractThresholdSlice ice (1/2) with
  | none => .error (.thresholdLookup "prob(Ice)" (1/2))
  | some i1 =>
    match extractThresholdSlice ice 1 with
    | none => .error (.thresholdLookup "prob(Ice)" 1)
    | some i2 =>
      match extractThresholdSlice ice 2 with
      | none => .error (.thresholdLookup "prob(Ice)" 2)
      | some i3 =>
        .ok { fg with data := [applyIceData (d0 fg) i1 i2 i3 fg.fp] }

/-- Modelled from the spec: the First-Guess Modifier.  The lightning and
first-guess cubes must match the template's validity time
(`AlignmentError` naming which failed); the rate floor, the
Precipitation Rule and (when ice is supplied) the Ice Rule are then
applied in sequence, the output carrying the template's metadata. -/
def modifyFirstGuessCube (template fg ltng precip : Cube Pos)
    (vii : Option (Cube Pos)) : Except NLError (Cube Pos) :=
  if ¬ ltng.time = template.time then .error (.alignment "lightning")
  else if ¬ fg.time = template.time then .error (.alignment "first-guess")
  else
    let afterRate : Cube Pos :=
      { template with data := [rateStage (d0 fg) (d0 ltng)] }
    match applyPrecipCube afterRate precip with
    | .error e => .error e
    | .ok afterPrecip =>
      match vii with
      | none => .ok afterPrecip
      | some ice => applyIceCube afterPrecip ice

/-- Modelled from the spec: the Orchestrator.  Roles are resolved from
the unordered collection; the template is the low-threshold
precipitation slice, normalized by `updateMetadata`; the First-Guess
Modifier produces the result. -/
def process (cubes : List (Cube Pos)) : Except NLError (Cube Pos) :=
  match extractByName cubes "probability_of_lightning" with
  | .error e => .error e
  | .ok fg =>
    match extractByName cubes "rate_of_lightning" with
    | .error e => .error e
    | .ok ltng =>
      match extractByName cubes "probability_of_precipitation" with
      | .error e => .error e
      | .ok precip =>
        match extractThresholdCube precip (1/2) with
        | none => .error (.thresholdLookup "low precip" (1/2))
        | some sliceCube =>
          match updateMetadata sliceCube with
          | .error e => .error e
          | .ok template =>
            modifyFirstGuessCube template fg ltng precip
              ((cubes.filter
                (fun c =>
                  c.name == "probability_of_vertical_integral_of_ice")).head?)

/-- Modelled from the spec: a component call against an explicit store
of live fields.  Every operation reads its inputs and, on success,
appends the one freshly created output field to the store; no existing
field is touched. -/
def callFrame (store : List (Cube Pos)) (r : Except NLError (Cube Pos)) :
    Except NLError (List (Cube Pos) × Cube Pos) :=
  match r with
  | .ok c => .ok (store ++ [c], c)
  | .error e => .error e

/-- Metadata normalization as a store-level call. -/
def updateMetadataCall (store : List (Cube Pos)) (c : Cube Pos) :
    Except NLError (List (Cube Pos) × Cube Pos) :=
  callFrame store (updateMetadata c)

/-- The Precipitation Rule as a store-level call. -/
def applyPrecipCall (store : List (Cube Pos)) (fg precip : Cube Pos) :
    Except NLError (List (Cube Pos) × Cube Pos) :=
  callFrame store (applyPrecipCube fg precip)

/-- The Ice Rule as a store-level call. -/
def applyIceCall (store : List (Cube Pos)) (fg ice : Cube Pos) :
    Except NLError (List (Cube Pos) × Cube Pos) :=
  callFrame store (applyIceCube fg ice)

/-- The First-Guess Modifier as a store-level call. -/
def modifyFirstGuessCall (store : List (Cube Pos))
    (template fg ltng precip : Cube Pos) (vii : Option (Cube Pos)) :
    Except NLError (List (Cube Pos) × Cube Pos) :=
  callFrame store (modifyFirstGuessCube template fg ltng precip vii)

/-- A concrete ice cube on a one-cell grid: all three slices 1.0. -/
def iceSample : Cube Unit :=
  ⟨"probability_of_vertical_integral_of_ice", 0, 0,
    [⟨"threshold", [1/2, 1, 2]⟩], [fun _ => 1, fun _ => 1, fun _ => 1]⟩

/-- A concrete first-guess cube of 0 at forecast lead time 0. -/
def fgSample0 : Cube Unit :=
  ⟨"probability_of_lightning", 0, 0, [], [fun _ => 0]⟩

/-- A concrete first-guess cube of 0 at forecast lead time 3 hours. -/
def fgSample3 : Cube Unit :=
  ⟨"probability_of_lightning", 0, 3, [], [fun _ => 0]⟩

/-- A concrete lightning-rate cube of constant rate 1. -/
def ltngSample : Cube Unit :=
  ⟨"rate_of_lightning", 0, 0, [], [fun _ => 1]⟩

/-- A concrete precipitation cube: low slice 1, mid and high slices 0. -/
def precipSample : Cube Unit :=
  ⟨"probability_of_precipitation", 0, 0,
    [⟨"threshold", [1/2, 7, 35]⟩], [fun _ => 1, fun _ => 0, fun _ => 0]⟩

/-- A precipitation cube whose threshold coordinate has been removed. -/
def precipNoThrSample : Cube Unit :=
  ⟨"probability_of_precipitation", 0, 0, [], [fun _ => 1]⟩

/-- The output of `process` on the four sample cubes. -/
def c6OutSample : Cube Unit :=
  ⟨"lightning_probability", 0, 0, [],
    [applyIceData (applyPrecipData (rateStage (fun _ => 0) (fun _ => 1))
      (fun _ => 1) (fun _ => 0) (fun _ => 0))
      (fun _ => 1) (fun _ => 1) (fun _ => 1) 0]⟩


end Nowcast

namespace Nowcast

/-- The ceiling mapping table never leaves the unit interval; its least
value is the first control point 0.0067. -/
theorem precipCeiling_bounds (x : ℚ) :
    0 ≤ precipCeiling x ∧ precipCeiling x ≤ 1 := by
  unfold precipCeiling interpSeg
  split_ifs with h1 h2 h3
  · norm_num
  · have e : 67/10000 + (x - 0) * (1/5 - 67/10000) / (1/20 - 0)
        = 67/10000 + x * (1933/500) := by ring
    rw [e]; constructor <;> nlinarith
  · have e : 1/5 + (x - 1/20) * (1 - 1/5) / (1/10 - 1/20)
        = 1/5 + (x - 1/20) * 16 := by ring
    rw [e]; constructor <;> nlinarith
  · norm_num

/-- The rate floor stage keeps a unit-interval first guess inside the
unit interval, whatever the rate field holds. -/
theorem rateStage_bounds (fg rate : Pos → ℚ) (p : Pos)
    (h0 : 0 ≤ fg p) (h1 : fg p ≤ 1) :
    0 ≤ rateStage fg rate p ∧ rateStage fg rate p ≤ 1 := by
  unfold rateStage
  split_ifs <;> constructor <;>
    simp [le_max_iff, max_le_iff] <;> norm_num <;> tauto

/-- The Precipitation Rule always outputs inside the unit interval: the
ceiling is at most 1 and the floors are 0, 0.25 or 1. -/
theorem applyPrecipData_bounds (fg low mid high : Pos → ℚ) (p : Pos) :
    0 ≤ applyPrecipData fg low mid high p ∧
      applyPrecipData fg low mid high p ≤ 1 := by
  have hc := precipCeiling_bounds (low p)
  unfold applyPrecipData floorMid floorHigh
  split_ifs <;> constructor <;>
    simp [le_max_iff, max_le_iff, le_min_iff, min_le_iff] <;> norm_num <;> tauto

/-- The lead-time decay factor lies in the unit interval. -/
theorem iceDecay_bounds (t : ℚ) : 0 ≤ iceDecay t ∧ iceDecay t ≤ 1 := by
  unfold iceDecay
  split_ifs with h
  · norm_num
  · refine ⟨le_max_left 0 _, ?_⟩
    rw [max_le_iff]
    constructor <;> nlinarith [not_le.mp h]

/-- The Ice Rule keeps a unit-interval first guess inside the unit
interval when the three ice slices are probabilities. -/
theorem applyIceData_bounds (fg i1 i2 i3 : Pos → ℚ) (lead : ℚ) (p : Pos)
    (h0 : 0 ≤ fg p) (h1 : fg p ≤ 1)
    (hi1 : 0 ≤ i1 p ∧ i1 p ≤ 1) (hi2 : 0 ≤ i2 p ∧ i2 p ≤ 1)
    (hi3 : 0 ≤ i3 p ∧ i3 p ≤ 1) :
    0 ≤ applyIceData fg i1 i2 i3 lead p ∧
      applyIceData fg i1 i2 i3 lead p ≤ 1 := by
  obtain ⟨hd0, hd1⟩ := iceDecay_bounds lead
  unfold applyIceData iceScalingLow iceScalingMid iceScalingHigh
  constructor
  · exact le_max_of_le_left h0
  · rw [max_le_iff]
    refine ⟨h1, ?_⟩
    have hm : max (1/10 * i1 p) (max (1/2 * i2 p) (9/10 * i3 p)) ≤ 1 := by
      rw [max_le_iff, max_le_iff]
      refine ⟨by nlinarith [hi1.1, hi1.2], by nlinarith [hi2.1, hi2.2],
        by nlinarith [hi3.1, hi3.2]⟩
    have hm0 : 0 ≤ max (1/10 * i1 p) (max (1/2 * i2 p) (9/10 * i3 p)) :=
      le_max_of_le_left (by nlinarith [hi1.1])
    nlinarith

/-- C1: with a first guess of 1.0 and no floor contribution, a zero low
slice caps the Precipitation Rule's output at the first ceiling control
point 0.0067, and a low slice of 0.075 (between the 0.05 and 0.1
control points) interpolates the ceiling strictly between 0.2 and
1.0. -/
theorem c1_precip_ceiling_values {Pos : Type}
    (fg low mid high : Pos → ℚ) (p q : Pos)
    (hfp : fg p = 1) (hlp : low p = 0) (hmp : mid p = 0) (hhp : high p = 0)
    (hfq : fg q = 1) (hlq : low q = 3/40) (hmq : mid q = 0) (hhq : high q = 0) :
    applyPrecipData fg low mid high p = 67/10000 ∧
    1/5 < applyPrecipData fg low mid high q ∧
    applyPrecipData fg low mid high q < 1 := by
  unfold applyPrecipData
  rw [hfp, hlp, hmp, hhp, hfq, hlq, hmq, hhq]
  norm_num [precipCeiling, interpSeg, floorMid, floorHigh, phighthresh,
    ptorrthresh]

/-- Witness for C1 on a two-cell grid. -/
theorem c1_precip_ceiling_values_witness :
    applyPrecipData (fun _ : Bool => 1) (fun b => bif b then 0 else 3/40)
      (fun _ => 0) (fun _ => 0) true = 67/10000 ∧
    1/5 < applyPrecipData (fun _ : Bool => 1) (fun b => bif b then 0 else 3/40)
      (fun _ => 0) (fun _ => 0) false ∧
    applyPrecipData (fun _ : Bool => 1) (fun b => bif b then 0 else 3/40)
      (fun _ => 0) (fun _ => 0) false < 1 :=
  c1_precip_ceiling_values _ _ _ _ true false rfl rfl rfl rfl rfl rfl rfl rfl

/-- C2 counterexample: at first guess 0, low slice 1, mid slice 0.5 and
high slice 0 the Precipitation Rule outputs 0.25, not the 0.125 that
the piecewise-linear floor-mid table (control points 0 -> 0,
1 -> 0.25) would dictate; the claim's reading disagrees with the rule
at this input. -/
theorem c2_floor_mid_counterexample :
    applyPrecipData (fun _ : Unit => 0) (fun _ => 1) (fun _ => 1/2)
      (fun _ => 0) () = 1/4 ∧
    applyPrecipLinearMid (fun _ : Unit => 0) (fun _ => 1) (fun _ => 1/2)
      (fun _ => 0) () = 1/8 ∧
    applyPrecipData (fun _ : Unit => 0) (fun _ => 1) (fun _ => 1/2)
      (fun _ => 0) () ≠
      applyPrecipLinearMid (fun _ : Unit => 0) (fun _ => 1) (fun _ => 1/2)
        (fun _ => 0) () := by
  norm_num [applyPrecipData, applyPrecipLinearMid, floorMid, floorMidLinearSpec,
    floorHigh, precipCeiling, interpSeg, phighthresh, ptorrthresh]

/-- C2 as amended: the floor-mid adjustment is a step, not a linear
interpolation: a mid slice of at least 0.4 raises the Precipitation
Rule's output to at least 0.25, while a mid slice below 0.4 contributes
no floor at all (the rule behaves as if the mid slice were absent); in
particular the step maps 0.5 to floor 0.25 and 0.3 to no floor. -/
theorem c2_floor_mid_step {Pos : Type} (fg low mid high : Pos → ℚ) (p : Pos) :
    (2/5 ≤ mid p → 1/4 ≤ applyPrecipData fg low mid high p) ∧
    (mid p < 2/5 → applyPrecipData fg low mid high p =
      max (min (fg p) (precipCeiling (low p))) (floorHigh (high p))) ∧
    floorMid (1/2) = 1/4 ∧ floorMid (3/10) = 0 := by
  refine ⟨?_, ?_, ?_, ?_⟩
  · intro h
    unfold applyPrecipData floorMid
    rw [if_pos (by simpa [phighthresh] using h)]
    exact le_max_of_le_right (le_max_left _ _)
  · intro h
    have hlt : mid p < phighthresh := by
      rw [show phighthresh = 2/5 from rfl]; exact h
    unfold applyPrecipData floorMid
    rw [if_neg (not_le.mpr hlt)]
    rw [max_eq_right (a := (0:ℚ))
      (by unfold floorHigh; split_ifs <;> norm_num)]
  · norm_num [floorMid, phighthresh]
  · norm_num [floorMid, phighthresh]

/-- Witness for C2's amended statement, at a cell with mid slice 0.5
and a cell with mid slice 0.3. -/
theorem c2_floor_mid_step_witness :
    1/4 ≤ applyPrecipData (fun _ : Unit => 0) (fun _ => 1) (fun _ => 1/2)
      (fun _ => 0) () ∧
    applyPrecipData (fun _ : Unit => 1/10) (fun _ => 1) (fun _ => 3/10)
      (fun _ => 0) () =
      max (min ((fun _ : Unit => (1:ℚ)/10) ()) (precipCeiling
        ((fun _ : Unit => (1:ℚ)) ()))) (floorHigh ((fun _ : Unit => (0:ℚ)) ())) ∧
    floorMid (1/2) = 1/4 ∧ floorMid (3/10) = 0 :=
  ⟨(c2_floor_mid_step (fun _ : Unit => 0) (fun _ => 1) (fun _ => 1/2)
      (fun _ => 0) ()).1 (by norm_num),
   (c2_floor_mid_step (fun _ : Unit => 1/10) (fun _ => 1) (fun _ => 3/10)
      (fun _ => 0) ()).2.1 (by norm_num),
   (c2_floor_mid_step (fun _ : Unit => 0) (fun _ => 1) (fun _ => 1/2)
      (fun _ => 0) ()).2.2.1,
   (c2_floor_mid_step (fun _ : Unit => 0) (fun _ => 1) (fun _ => 1/2)
      (fun _ => 0) ()).2.2.2⟩

/-- C3: the heavy and intense precipitation floors dominate the ceiling:
with first guess 0, a mid slice of 0.5 (high slice 0) makes the
Precipitation Rule output 0.25, and a high slice of 0.5 (mid and low
slices 1.0) makes it output 1.0. -/
theorem c3_heavy_intense_floors {Pos : Type}
    (fg low mid high : Pos → ℚ) (p q : Pos)
    (hfp : fg p = 0) (hmp : mid p = 1/2) (hhp : high p = 0)
    (hfq : fg q = 0) (hlq : low q = 1) (hmq : mid q = 1) (hhq : high q = 1/2) :
    applyPrecipData fg low mid high p = 1/4 ∧
    applyPrecipData fg low mid high q = 1 := by
  constructor
  · unfold applyPrecipData
    rw [hfp, hmp, hhp]
    rw [min_eq_left (precipCeiling_bounds (low p)).1]
    norm_num [floorMid, floorHigh, phighthresh, ptorrthresh]
  · unfold applyPrecipData
    rw [hfq, hlq, hmq, hhq]
    norm_num [floorMid, floorHigh, precipCeiling, phighthresh, ptorrthresh]

/-- Witness for C3 on a two-cell grid. -/
theorem c3_heavy_intense_floors_witness :
    applyPrecipData (fun _ : Bool => 0) (fun b => bif b then 0 else 1)
      (fun b => bif b then 1/2 else 1) (fun b => bif b then 0 else 1/2)
      true = 1/4 ∧
    applyPrecipData (fun _ : Bool => 0) (fun b => bif b then 0 else 1)
      (fun b => bif b then 1/2 else 1) (fun b => bif b then 0 else 1/2)
      false = 1 :=
  c3_heavy_intense_floors _ _ _ _ true false rfl rfl rfl rfl rfl rfl rfl

/-- C5: a rate field that is everywhere the null sentinel -1 makes the
rate floor contribute nothing, the First-Guess Modifier's result being
exactly the Precipitation Rule's output on the untouched first guess;
a legitimate rate of exactly 0 is below neither breakpoint and raises
its cell to at least the 0.25 floor. -/
theorem c5_null_sentinel {Pos : Type}
    (fg rateN rateZ low mid high : Pos → ℚ) (lead : ℚ) (p : Pos) :
    ((∀ q, rateN q = -1) →
      modifyFirstGuessData fg rateN low mid high none lead =
        applyPrecipData fg low mid high) ∧
    (rateZ p = 0 → rateStage fg rateZ p = max (fg p) (1/4)) := by
  constructor
  · intro hnull
    unfold modifyFirstGuessData
    have hrate : rateStage fg rateN = fg := by
      funext q
      unfold rateStage
      rw [hnull q]
      norm_num [lrtLev1, lrtLev2]
    rw [hrate]
  · intro hz
    unfold rateStage
    rw [hz]
    norm_num [lrtLev1, lrtLev2]

/-- Witness for C5 with a sentinel rate field and a zero rate field. -/
theorem c5_null_sentinel_witness :
    modifyFirstGuessData (fun _ : Unit => 1) (fun _ => -1) (fun _ => 0)
      (fun _ => 0) (fun _ => 0) none 0 =
      applyPrecipData (fun _ : Unit => 1) (fun _ => 0) (fun _ => 0)
        (fun _ => 0) ∧
    rateStage (fun _ : Unit => 1) (fun _ => 0) () =
      max ((fun _ : Unit => (1:ℚ)) ()) (1/4) :=
  ⟨(c5_null_sentinel (fun _ : Unit => 1) (fun _ => -1) (fun _ => 0)
      (fun _ => 0) (fun _ => 0) (fun _ => 0) 0 ()).1 (fun _ => rfl),
   (c5_null_sentinel (fun _ : Unit => 1) (fun _ => -1) (fun _ => 0)
      (fun _ => 0) (fun _ => 0) (fun _ => 0) 0 ()).2 rfl⟩

/-- C10: with first guess 0 and lead time 0, a low-threshold ice slice
of 0.5 alone yields 0.05 from the Ice Rule: the low slice carries its
own floor weight 0.1. -/
theorem c10_ice_low_weight {Pos : Type}
    (fg i1 i2 i3 : Pos → ℚ) (p : Pos)
    (hf : fg p = 0) (h1 : i1 p = 1/2) (h2 : i2 p = 0) (h3 : i3 p = 0) :
    applyIceData fg i1 i2 i3 0 p = 1/20 := by
  unfold applyIceData
  rw [hf, h1, h2, h3]
  norm_num [iceDecay, iceScalingLow, iceScalingMid, iceScalingHigh]

/-- Witness for C10. -/
theorem c10_ice_low_weight_witness :
    applyIceData (fun _ : Unit => 0) (fun _ => 1/2) (fun _ => 0)
      (fun _ => 0) 0 () = 1/20 :=
  c10_ice_low_weight _ _ _ _ () rfl rfl rfl rfl

/-- On successful slice extraction, the Ice Rule returns the cube whose
single slice applies `applyIceData` at the consuming cube's forecast
lead time. -/
theorem applyIceCube_ok {Pos : Type} (fg ice : Cube Pos) (i1 i2 i3 : Pos → ℚ)
    (h1 : extractThresholdSlice ice (1/2) = some i1)
    (h2 : extractThresholdSlice ice 1 = some i2)
    (h3 : extractThresholdSlice ice 2 = some i3) :
    applyIceCube fg ice =
      .ok { fg with data := [applyIceData (d0 fg) i1 i2 i3 fg.fp] } := by
  unfold applyIceCube
  rw [h1, h2, h3]

/-- C4: with all three ice slices 1.0 and first guess 0, the Ice Rule
yields 0.9 when the consuming cube's forecast lead time is 0 hours and
0.0 when it is 3 hours, past the decay horizon. -/
theorem c4_ice_lead_decay {Pos : Type} (fg0 fg3 ice : Cube Pos)
    (i1 i2 i3 : Pos → ℚ) (p : Pos)
    (h1 : extractThresholdSlice ice (1/2) = some i1)
    (h2 : extractThresholdSlice ice 1 = some i2)
    (h3 : extractThresholdSlice ice 2 = some i3)
    (hv1 : i1 p = 1) (hv2 : i2 p = 1) (hv3 : i3 p = 1)
    (hfp0 : fg0.fp = 0) (hfp3 : fg3.fp = 3)
    (hd0 : d0 fg0 p = 0) (hd3 : d0 fg3 p = 0) :
    applyIceCube fg0 ice =
      .ok { fg0 with data := [applyIceData (d0 fg0) i1 i2 i3 fg0.fp] } ∧
    applyIceData (d0 fg0) i1 i2 i3 fg0.fp p = 9/10 ∧
    applyIceCube fg3 ice =
      .ok { fg3 with data := [applyIceData (d0 fg3) i1 i2 i3 fg3.fp] } ∧
    applyIceData (d0 fg3) i1 i2 i3 fg3.fp p = 0 := by
  refine ⟨applyIceCube_ok fg0 ice i1 i2 i3 h1 h2 h3, ?_,
    applyIceCube_ok fg3 ice i1 i2 i3 h1 h2 h3, ?_⟩
  · unfold applyIceData
    rw [hfp0, hd0, hv1, hv2, hv3]
    norm_num [iceDecay, iceScalingLow, iceScalingMid, iceScalingHigh]
  · unfold applyIceData
    rw [hfp3, hd3, hv1, hv2, hv3]
    norm_num [iceDecay, iceScalingLow, iceScalingMid, iceScalingHigh]

/-- Witness for C4 at the concrete sample cubes. -/
theorem c4_ice_lead_decay_witness :
    applyIceCube fgSample0 iceSample =
      .ok { fgSample0 with data := [applyIceData (d0 fgSample0)
        (fun _ => 1) (fun _ => 1) (fun _ => 1) fgSample0.fp] } ∧
    applyIceData (d0 fgSample0) (fun _ => 1) (fun _ => 1) (fun _ => 1)
      fgSample0.fp () = 9/10 ∧
    applyIceCube fgSample3 iceSample =
      .ok { fgSample3 with data := [applyIceData (d0 fgSample3)
        (fun _ => 1) (fun _ => 1) (fun _ => 1) fgSample3.fp] } ∧
    applyIceData (d0 fgSample3) (fun _ => 1) (fun _ => 1) (fun _ => 1)
      fgSample3.fp () = 0 :=
  c4_ice_lead_decay fgSample0 fgSample3 iceSample
    (fun _ => 1) (fun _ => 1) (fun _ => 1) ()
    (by norm_num +decide [extractThresholdSlice, thresholdCoords, iceSample,
      List.filter_cons, List.findIdx?_cons, beq_iff_eq])
    (by norm_num +decide [extractThresholdSlice, thresholdCoords, iceSample,
      List.filter_cons, List.findIdx?_cons, beq_iff_eq])
    (by norm_num +decide [extractThresholdSlice, thresholdCoords, iceSample,
      List.filter_cons, List.findIdx?_cons, beq_iff_eq])
    rfl rfl rfl rfl rfl rfl rfl

/-- C9: the Metadata Normalizer returns, for a template with exactly one
threshold coordinate, a copy with that coordinate removed, the data
untouched and the identity renamed to "lightning_probability"; for any
other threshold-coordinate count it fails with the `CoordinateError`
"expected exactly one threshold coordinate". -/
theorem c9_update_metadata {Pos : Type} (c : Cube Pos) :
    ((thresholdCoords c).length = 1 →
      updateMetadata c = .ok { c with
        name := "lightning_probability",
        coords := c.coords.filter (fun k => !(k.cname == "threshold")) }) ∧
    ((thresholdCoords c).length ≠ 1 →
      updateMetadata c =
        .error (.coordinate "expected exactly one threshold coordinate")) := by
  constructor
  · intro h
    unfold updateMetadata
    rcases htc : thresholdCoords c with _ | ⟨k, _ | ⟨k2, rest⟩⟩
    · rw [htc] at h; simp at h
    · rfl
    · rw [htc] at h; simp at h
  · intro h
    unfold updateMetadata
    rcases htc : thresholdCoords c with _ | ⟨k, _ | ⟨k2, rest⟩⟩
    · rfl
    · rw [htc] at h; simp at h
    · rfl

/-- Witness for C9 at the concrete ice sample cube. -/
theorem c9_update_metadata_witness :
    updateMetadata iceSample = .ok { iceSample with
      name := "lightning_probability",
      coords := iceSample.coords.filter (fun k => !(k.cname == "threshold")) } :=
  (c9_update_metadata iceSample).1 rfl

/-- C8: omitting the first-guess role from the collection makes the
Orchestrator fail with a `RoleResolutionError` naming the role
"probability_of_lightning" and count 0, and a precipitation cube
without a threshold coordinate makes it fail with a
`ThresholdLookupError` for the low (0.5 mm/hr) threshold. -/
theorem c8_orchestrator_errors {Pos : Type}
    (cubesA cubesB : List (Cube Pos)) (fg ltng precip : Cube Pos) :
    (cubesA.filter (fun c => c.name == "probability_of_lightning") = [] →
      process cubesA = .error (.roleResolution "probability_of_lightning" 0)) ∧
    (cubesB.filter (fun c => c.name == "probability_of_lightning") = [fg] →
      cubesB.filter (fun c => c.name == "rate_of_lightning") = [ltng] →
      cubesB.filter (fun c => c.name == "probability_of_precipitation")
        = [precip] →
      thresholdCoords precip = [] →
      process cubesB = .error (.thresholdLookup "low precip" (1/2))) := by
  constructor
  · intro h
    have e1 : extractByName cubesA "probability_of_lightning" =
        .error (.roleResolution "probability_of_lightning" 0) := by
      unfold extractByName; rw [h]; rfl
    simp only [process, e1]
  · intro h1 h2 h3 h4
    have e1 : extractByName cubesB "probability_of_lightning" = .ok fg := by
      unfold extractByName; rw [h1]
    have e2 : extractByName cubesB "rate_of_lightning" = .ok ltng := by
      unfold extractByName; rw [h2]
    have e3 : extractByName cubesB "probability_of_precipitation"
        = .ok precip := by
      unfold extractByName; rw [h3]
    have e4 : extractThresholdCube precip (1/2) = none := by
      unfold extractThresholdCube extractThresholdSlice; rw [h4]
    simp only [process, e1, e2, e3, e4]

/-- Witness for C8: the empty collection and a collection whose
precipitation cube lacks its threshold coordinate. -/
theorem c8_orchestrator_errors_witness :
    process ([] : List (Cube Unit)) =
      .error (.roleResolution "probability_of_lightning" 0) ∧
    process [fgSample0, ltngSample, precipNoThrSample] =
      .error (.thresholdLookup "low precip" (1/2)) :=
  ⟨(c8_orchestrator_errors [] [fgSample0, ltngSample, precipNoThrSample]
      fgSample0 ltngSample precipNoThrSample).1 rfl,
   (c8_orchestrator_errors [] [fgSample0, ltngSample, precipNoThrSample]
      fgSample0 ltngSample precipNoThrSample).2 rfl rfl rfl rfl⟩

/-- C7: each component operation, run against a store of live fields,
leaves every existing field untouched (the prior store is returned
verbatim as a prefix) and appends its one freshly created output. -/
theorem c7_frame {Pos : Type} (store : List (Cube Pos))
    (c template fg ltng precip ice : Cube Pos) (vii : Option (Cube Pos)) :
    (∀ r, updateMetadata c = .ok r →
      updateMetadataCall store c = .ok (store ++ [r], r) ∧
        (store ++ [r]).take store.length = store) ∧
    (∀ r, applyPrecipCube fg precip = .ok r →
      applyPrecipCall store fg precip = .ok (store ++ [r], r) ∧
        (store ++ [r]).take store.length = store) ∧
    (∀ r, applyIceCube fg ice = .ok r →
      applyIceCall store fg ice = .ok (store ++ [r], r) ∧
        (store ++ [r]).take store.length = store) ∧
    (∀ r, modifyFirstGuessCube template fg ltng precip vii = .ok r →
      modifyFirstGuessCall store template fg ltng precip vii
          = .ok (store ++ [r], r) ∧
        (store ++ [r]).take store.length = store) := by
  refine ⟨fun r h => ?_, fun r h => ?_, fun r h => ?_, fun r h => ?_⟩ <;>
    first
    | exact ⟨by unfold updateMetadataCall callFrame; rw [h],
        List.take_left store [r]⟩
    | exact ⟨by unfold applyPrecipCall callFrame; rw [h],
        List.take_left store [r]⟩
    | exact ⟨by unfold applyIceCall callFrame; rw [h],
        List.take_left store [r]⟩
    | exact ⟨by unfold modifyFirstGuessCall callFrame; rw [h],
        List.take_left store [r]⟩

/-- Witness for C7: all four operations called against a one-field
store at concrete succeeding inputs. -/
theorem c7_frame_witness :
    (updateMetadataCall [ltngSample] iceSample =
      .ok ([ltngSample] ++ [{ iceSample with
        name := "lightning_probability", coords := [] }],
        { iceSample with name := "lightning_probability", coords := [] }) ∧
      ([ltngSample] ++ [{ iceSample with
        name := "lightning_probability", coords := [] }]).take 1
        = [ltngSample]) ∧
    (applyPrecipCall [ltngSample] fgSample0 precipSample =
      .ok ([ltngSample] ++ [{ fgSample0 with data := [applyPrecipData
        (d0 fgSample0) (fun _ => 1) (fun _ => 0) (fun _ => 0)] }],
        { fgSample0 with data := [applyPrecipData (d0 fgSample0)
          (fun _ => 1) (fun _ => 0) (fun _ => 0)] }) ∧
      ([ltngSample] ++ [{ fgSample0 with data := [applyPrecipData
        (d0 fgSample0) (fun _ => 1) (fun _ => 0) (fun _ => 0)] }]).take 1
        = [ltngSample]) ∧
    (applyIceCall [ltngSample] fgSample0 iceSample =
      .ok ([ltngSample] ++ [{ fgSample0 with data := [applyIceData
        (d0 fgSample0) (fun _ => 1) (fun _ => 1) (fun _ => 1)
        fgSample0.fp] }],
        { fgSample0 with data := [applyIceData (d0 fgSample0)
          (fun _ => 1) (fun _ => 1) (fun _ => 1) fgSample0.fp] }) ∧
      ([ltngSample] ++ [{ fgSample0 with data := [applyIceData
        (d0 fgSample0) (fun _ => 1) (fun _ => 1) (fun _ => 1)
        fgSample0.fp] }]).take 1 = [ltngSample]) ∧
    (modifyFirstGuessCall [ltngSample] fgSample0 fgSample0 ltngSample
        precipSample none =
      .ok ([ltngSample] ++ [{ fgSample0 with data := [applyPrecipData
        (rateStage (d0 fgSample0) (d0 ltngSample)) (fun _ => 1)
        (fun _ => 0) (fun _ => 0)] }],
        { fgSample0 with data := [applyPrecipData
          (rateStage (d0 fgSample0) (d0 ltngSample)) (fun _ => 1)
          (fun _ => 0) (fun _ => 0)] }) ∧
      ([ltngSample] ++ [{ fgSample0 with data := [applyPrecipData
        (rateStage (d0 fgSample0) (d0 ltngSample)) (fun _ => 1)
        (fun _ => 0) (fun _ => 0)] }]).take 1 = [ltngSample]) := by
  have h := c7_frame [ltngSample] iceSample fgSample0 fgSample0 ltngSample
    precipSample iceSample none
  have hp : applyPrecipCube fgSample0 precipSample = .ok { fgSample0 with
      data := [applyPrecipData (d0 fgSample0) (fun _ => 1) (fun _ => 0)
        (fun _ => 0)] } := by
    norm_num +decide [applyPrecipCube, extractThresholdSlice, thresholdCoords,
      precipSample, List.filter_cons, List.findIdx?_cons, beq_iff_eq]
  have hi : applyIceCube fgSample0 iceSample = .ok { fgSample0 with
      data := [applyIceData (d0 fgSample0) (fun _ => 1) (fun _ => 1)
        (fun _ => 1) fgSample0.fp] } := by
    norm_num +decide [applyIceCube, extractThresholdSlice, thresholdCoords,
      iceSample, List.filter_cons, List.findIdx?_cons, beq_iff_eq]
  have hm : modifyFirstGuessCube fgSample0 fgSample0 ltngSample precipSample
      none = .ok { fgSample0 with data := [applyPrecipData
        (rateStage (d0 fgSample0) (d0 ltngSample)) (fun _ => 1) (fun _ => 0)
        (fun _ => 0)] } := by
    norm_num +decide [modifyFirstGuessCube, applyPrecipCube,
      extractThresholdSlice, thresholdCoords, precipSample, fgSample0,
      ltngSample, d0, List.filter_cons, List.findIdx?_cons, beq_iff_eq]
  exact ⟨h.1 _ rfl, h.2.1 _ hp, h.2.2.1 _ hi, h.2.2.2 _ hm⟩

/-- Successful role resolution returns a member of the collection
carrying the requested name. -/
theorem extractByName_ok {Pos : Type} {cubes : List (Cube Pos)}
    {role : String} {c : Cube Pos}
    (h : extractByName cubes role = .ok c) : c ∈ cubes ∧ c.name = role := by
  unfold extractByName at h
  split at h
  next a heq =>
    injection h with h2
    subst h2
    have ha : a ∈ List.filter (fun x => x.name == role) cubes := by
      rw [heq]; exact List.mem_singleton_self a
    exact ⟨List.mem_of_mem_filter ha,
      by simpa [beq_iff_eq] using List.of_mem_filter ha⟩
  next =>
    simp at h

/-- A successfully extracted threshold slice is one of the cube's data
slices. -/
theorem extractThresholdSlice_mem {Pos : Type} {c : Cube Pos} {t : ℚ}
    {s : Pos → ℚ} (h : extractThresholdSlice c t = some s) : s ∈ c.data := by
  unfold extractThresholdSlice at h
  split at h
  next k heq =>
    split at h
    next i hidx => exact List.get?_mem h
    next hidx => simp at h
  next hne => simp at h

/-- A successfully extracted threshold cube holds a single slice of the
source cube's data. -/
theorem extractThresholdCube_ok {Pos : Type} {c c' : Cube Pos} {t : ℚ}
    (h : extractThresholdCube c t = some c') :
    ∃ s, s ∈ c.data ∧ c'.data = [s] := by
  unfold extractThresholdCube at h
  split at h
  next s hs =>
    injection h with h2
    subst h2
    exact ⟨s, extractThresholdSlice_mem hs, rfl⟩
  next hs => simp at h

/-- The Metadata Normalizer does not change the data slices. -/
theorem updateMetadata_ok_data {Pos : Type} {c c' : Cube Pos}
    (h : updateMetadata c = .ok c') : c'.data = c.data := by
  unfold updateMetadata at h
  split at h
  · injection h with h2
    subst h2
    rfl
  · simp at h

/-- A successful Precipitation Rule call returns the single slice
produced by `applyPrecipData` on the input's first slice. -/
theorem applyPrecipCube_ok_data {Pos : Type} {fg precip r : Cube Pos}
    (h : applyPrecipCube fg precip = .ok r) :
    ∃ low mid high, r.data = [applyPrecipData (d0 fg) low mid high] := by
  unfold applyPrecipCube at h
  split at h
  next hlow => simp at h
  next low hlow =>
    split at h
    next hmid => simp at h
    next mid hmid =>
      split at h
      next hhigh => simp at h
      next high hhigh =>
        injection h with h2
        subst h2
        exact ⟨low, mid, high, rfl⟩

/-- A successful Ice Rule call returns the single slice produced by
`applyIceData` on the input's first slice, the three extracted ice
slices and the consuming cube's lead time. -/
theorem applyIceCube_ok_data {Pos : Type} {fg ice r : Cube Pos}
    (h : applyIceCube fg ice = .ok r) :
    ∃ i1 i2 i3, i1 ∈ ice.data ∧ i2 ∈ ice.data ∧ i3 ∈ ice.data ∧
      r.data = [applyIceData (d0 fg) i1 i2 i3 fg.fp] := by
  unfold applyIceCube at h
  split at h
  next h1 => simp at h
  next i1 h1 =>
    split at h
    next h2 => simp at h
    next i2 h2 =>
      split at h
      next h3 => simp at h
      next i3 h3 =>
        injection h with hr
        subst hr
        exact ⟨i1, i2, i3, extractThresholdSlice_mem h1,
          extractThresholdSlice_mem h2, extractThresholdSlice_mem h3, rfl⟩

/-- A successful First-Guess Modifier call only outputs unit-interval
slices, provided the optional ice cube's slices are probabilities. -/
theorem modifyFirstGuessCube_bounds {Pos : Type}
    {template fg ltng precip r : Cube Pos} {vii : Option (Cube Pos)}
    (hok : modifyFirstGuessCube template fg ltng precip vii = .ok r)
    (hice : ∀ ic, vii = some ic → ∀ d ∈ ic.data, ∀ p, 0 ≤ d p ∧ d p ≤ 1) :
    ∀ d ∈ r.data, ∀ p, 0 ≤ d p ∧ d p ≤ 1 := by
  unfold modifyFirstGuessCube at hok
  split_ifs at hok with h1 h2
  · dsimp only at hok
    rcases hap : applyPrecipCube
        { template with data := [rateStage (d0 fg) (d0 ltng)] } precip with
      e | ap
    · rw [hap] at hok
      simp at hok
    · rw [hap] at hok
      obtain ⟨low, mid, high, hdata⟩ := applyPrecipCube_ok_data hap
      have hap_d0 : ∀ p, 0 ≤ d0 ap p ∧ d0 ap p ≤ 1 := by
        intro p
        have hd : d0 ap = applyPrecipData (d0 { template with
            data := [rateStage (d0 fg) (d0 ltng)] }) low mid high := by
          unfold d0
          rw [hdata]
          rfl
        rw [hd]
        exact applyPrecipData_bounds _ _ _ _ p
      rcases vii with _ | ice
      · dsimp only at hok
        injection hok with hr
        subst hr
        intro d hd p
        rw [hdata] at hd
        rcases List.mem_singleton.mp hd with rfl
        exact applyPrecipData_bounds _ _ _ _ p
      · dsimp only at hok
        obtain ⟨i1, i2, i3, hm1, hm2, hm3, hrdata⟩ := applyIceCube_ok_data hok
        intro d hd p
        rw [hrdata] at hd
        rcases List.mem_singleton.mp hd with rfl
        exact applyIceData_bounds _ _ _ _ _ p (hap_d0 p).1 (hap_d0 p).2
          (hice ice rfl i1 hm1 p) (hice ice rfl i2 hm2 p)
          (hice ice rfl i3 hm3 p)

/-- C6: whenever the end-to-end `process` succeeds and every input
field other than the lightning-rate field holds probabilities in
[0, 1], every cell of every slice of the returned field lies in
[0, 1]. -/
theorem c6_process_bounds {Pos : Type} (cubes : List (Cube Pos))
    (r : Cube Pos) (hok : process cubes = .ok r)
    (hprob : ∀ c ∈ cubes, c.name ≠ "rate_of_lightning" →
      ∀ d ∈ c.data, ∀ p, 0 ≤ d p ∧ d p ≤ 1) :
    ∀ d ∈ r.data, ∀ p, 0 ≤ d p ∧ d p ≤ 1 := by
  unfold process at hok
  split at hok
  next e he => simp at hok
  next fg hfg =>
    split at hok
    next e he => simp at hok
    next ltng hltng =>
      split at hok
      next e he => simp at hok
      next precip hprecip =>
        split at hok
        next hsc => simp at hok
        next sliceCube hsc =>
          split at hok
          next e he => simp at hok
          next template htm =>
            refine modifyFirstGuessCube_bounds hok ?_
            intro ic hic d hd p
            have hmem : ic ∈ cubes ∧
                ic.name = "probability_of_vertical_integral_of_ice" := by
              rcases hfl : cubes.filter (fun c =>
                  c.name == "probability_of_vertical_integral_of_ice") with
                _ | ⟨ic0, tl⟩ <;> rw [hfl] at hic
              · simp at hic
              · have : ic0 = ic := by simpa using hic
                subst this
                have h0 : ic0 ∈ cubes.filter (fun c =>
                    c.name == "probability_of_vertical_integral_of_ice") := by
                  rw [hfl]; exact List.mem_cons_self ic0 tl
                exact ⟨List.mem_of_mem_filter h0,
                  by simpa [beq_iff_eq] using List.of_mem_filter h0⟩
            exact hprob ic hmem.1 (by rw [hmem.2]; decide) d hd p

/-- Witness for C6: `process` succeeds on the four sample cubes and its
single cell stays within the unit interval. -/
theorem c6_process_bounds_witness :
    0 ≤ d0 c6OutSample () ∧ d0 c6OutSample () ≤ 1 := by
  have hok : process [fgSample0, ltngSample, precipSample, iceSample]
      = .ok c6OutSample := by
    norm_num +decide [process, extractByName, List.filter_cons, beq_iff_eq,
      extractThresholdCube, extractThresholdSlice, thresholdCoords,
      updateMetadata, modifyFirstGuessCube, applyPrecipCube, applyIceCube,
      d0, List.headD, List.findIdx?_cons, fgSample0, ltngSample, precipSample,
      iceSample, c6OutSample]
  have hprob : ∀ c ∈ [fgSample0, ltngSample, precipSample, iceSample],
      c.name ≠ "rate_of_lightning" →
      ∀ d ∈ c.data, ∀ p : Unit, 0 ≤ d p ∧ d p ≤ 1 := by
    intro c hc hn d hd p
    simp only [List.mem_cons, List.not_mem_nil, or_false] at hc
    rcases hc with rfl | rfl | rfl | rfl
    · simp only [fgSample0, List.mem_singleton] at hd
      subst hd
      norm_num
    · exact absurd rfl hn
    · simp only [precipSample, List.mem_cons, List.not_mem_nil,
        or_false] at hd
      rcases hd with rfl | rfl | rfl <;> norm_num
    · simp only [iceSample, List.mem_cons, List.not_mem_nil, or_false] at hd
      rcases hd with rfl | rfl | rfl <;> norm_num
  exact c6_process_bounds [fgSample0, ltngSample, precipSample, iceSample]
    c6OutSample hok hprob (d0 c6OutSample) (List.mem_singleton.mpr rfl) ()

end Nowcast
